import Mathlib

/-!
Shallow embedding of the Fold valuation engine (src/fold_app_gem_v16.1.py).
Python floats are modelled as exact rationals (ℚ); all formulas are closed-form
arithmetic, so each Python expression translates literally.
-/

namespace FoldValuation

/-- BLOCKS_PER_YEAR = 2_628_000 (source line 8). -/
def BLOCKS_PER_YEAR : ℚ := 2628000

/-- FOLD_TOTAL_SUPPLY = 2_000_000 (source line 9). -/
def FOLD_TOTAL_SUPPLY : ℚ := 2000000

/-- XGA_TOTAL_SUPPLY = 270_000_000 (source line 12). -/
def XGA_TOTAL_SUPPLY : ℚ := 270000000

/-- AIRDROP_RATIO = 5.0 (source line 13). -/
def AIRDROP_RATIO : ℚ := 5

/-- The two values of the "Base Currency" radio (source line 203): "USD ($)" or "ETH (Ξ)". -/
inductive CurrencyMode where
| usd : CurrencyMode
| eth : CurrencyMode
deriving DecidableEq, BEq

/-- The session-state fields that the valuation logic reads (source lines 183-196
and the sidebar widgets). -/
structure InputState where
  market_share_pct : ℚ
  adjustment_rate_pct : ℚ
  success_rate_pct : ℚ
  avg_bid_eth : ℚ
  eth_price : ℚ
  pe_ratio : ℚ
  current_price : ℚ
  staked_pct : ℚ
  kickback_pct : ℚ
  fold_share_pct : ℚ
  staked_lock : Bool
  user_fold : ℚ
  currency_mode : CurrencyMode
  xga_mcap_input : ℚ

/-- safe_divide (source lines 158-159): `numerator / denominator if denominator != 0 else 0.0`.
Total: it never raises, the zero denominator case returns 0.0. -/
def safe_divide (numerator denominator : ℚ) : ℚ :=
  if denominator ≠ 0 then numerator / denominator else 0.0

/-- calculate_vault_revenue_eth (source lines 161-174). -/
def calculate_vault_revenue_eth (market_share adjustment_rate success_rate avg_bid
    kickback_rate fold_share : ℚ) : ℚ :=
  let total_slots := BLOCKS_PER_YEAR * market_share
  let adjustable := total_slots * adjustment_rate
  let successful := adjustable * success_rate
  let captured_value := successful * avg_bid
  let net_revenue := captured_value * (1.0 - kickback_rate)
  net_revenue * fold_share

/-- A named preset record: the four keys each SCENARIO_PRESETS entry holds
(source lines 15-34). -/
structure ScenarioPreset where
  market_share_pct : ℚ
  adjustment_rate_pct : ℚ
  success_rate_pct : ℚ
  avg_bid_eth : ℚ

/-- SCENARIO_PRESETS (source lines 15-34) as a lookup from the preset name. -/
def SCENARIO_PRESETS (name : String) : Option ScenarioPreset :=
  if name = "Conservative" then some ⟨10, 25, 30, 0.05⟩
  else if name = "Realistic" then some ⟨25, 40, 50, 0.10⟩
  else if name = "Optimistic" then some ⟨40, 60, 70, 0.15⟩
  else none

/-- update_from_preset (source lines 176-180): when the selected name is in
SCENARIO_PRESETS, write each of its four keys into the session state; otherwise
("Custom" or anything unrecognized) change nothing. -/
def update_from_preset (selected : String) (s : InputState) : InputState :=
  match SCENARIO_PRESETS selected with
  | some p =>
    { s with
      market_share_pct := p.market_share_pct
      adjustment_rate_pct := p.adjustment_rate_pct
      success_rate_pct := p.success_rate_pct
      avg_bid_eth := p.avg_bid_eth }
  | none => s

/-- The staked-lock branch of the sidebar (source lines 226-231): when the
"Enforce 400k Launch Cap" checkbox is on, staked_pct is overwritten with 20
before the main logic runs; otherwise the slider value stands. -/
def apply_staked_lock (s : InputState) : InputState :=
  if s.staked_lock then { s with staked_pct := 20 } else s

/-- The "Market Share %" slider bounds (source line 242):
`st.slider("Market Share %", 0, 50, key="market_share_pct")`. -/
def market_share_slider_min : ℚ := 0

/-- Max bound of the "Market Share %" slider (source line 242). -/
def market_share_slider_max : ℚ := 50

/-- Writing market_share_pct through its sidebar widget: a Streamlit slider
admits exactly the values between its declared min and max, so a requested
value is clamped to [0, 50] (source line 242). -/
def set_market_share_pct (s : InputState) (v : ℚ) : InputState :=
  { s with market_share_pct := max market_share_slider_min (min market_share_slider_max v) }

/-- Default session state (source lines 183-196): Realistic preset values plus
the explicitly initialized market/valuation fields; xga_mcap_input defaults to
the slider value 300 (source line 444). -/
def default_state : InputState where
  market_share_pct := 25
  adjustment_rate_pct := 40
  success_rate_pct := 50
  avg_bid_eth := 0.10
  eth_price := 3200.0
  pe_ratio := 20
  current_price := 0.75
  staked_pct := 50
  kickback_pct := 30
  fold_share_pct := 90
  staked_lock := false
  user_fold := 5000.0
  currency_mode := CurrencyMode.usd
  xga_mcap_input := 300

/-- The derived values the main logic and the XGA tab compute on each rerun
(source lines 263-302 and 447-463). -/
structure ResultsSnapshot where
  vault_rev_eth : ℚ
  vault_rev_display : ℚ
  staked_amt : ℚ
  yield_per_token : ℚ
  implied_mcap : ℚ
  implied_price : ℚ
  current_val_ref : ℚ
  div_yield : ℚ
  upside : ℚ
  my_income_annual : ℚ
  my_portfolio_val : ℚ
  xga_price : ℚ
  est_airdrop_tokens : ℚ
  est_airdrop_value : ℚ
  est_incentive_value : ℚ

/-- The main recompute pass (source lines 263-302: normalization, revenue,
currency conversion, yield, personal figures) together with the XGA tab math
(source lines 447-463). Pure function of the session state. -/
def recompute (s : InputState) : ResultsSnapshot :=
  let ms := s.market_share_pct / 100.0
  let ar := s.adjustment_rate_pct / 100.0
  let sr := s.success_rate_pct / 100.0
  let kr := s.kickback_pct / 100.0
  let fs := s.fold_share_pct / 100.0
  let staked_amt := FOLD_TOTAL_SUPPLY * (s.staked_pct / 100.0)
  let vault_rev_eth := calculate_vault_revenue_eth ms ar sr s.avg_bid_eth kr fs
  let eth_p := s.eth_price
  let vault_rev_display :=
    if s.currency_mode = CurrencyMode.usd then vault_rev_eth * eth_p else vault_rev_eth
  let yield_per_token :=
    if s.currency_mode = CurrencyMode.usd then safe_divide vault_rev_display staked_amt
    else safe_divide vault_rev_eth staked_amt
  let implied_mcap :=
    if s.currency_mode = CurrencyMode.usd then vault_rev_display * s.pe_ratio
    else vault_rev_eth * s.pe_ratio
  let implied_price := safe_divide implied_mcap FOLD_TOTAL_SUPPLY
  let current_val_ref :=
    if s.currency_mode = CurrencyMode.usd then s.current_price
    else safe_divide s.current_price eth_p
  let div_yield := safe_divide yield_per_token current_val_ref
  let upside := safe_divide (implied_price - current_val_ref) current_val_ref * 100
  let my_income_annual := s.user_fold * yield_per_token
  let my_portfolio_val := s.user_fold * implied_price
  let xga_mcap := s.xga_mcap_input * 1000000
  let xga_price := xga_mcap / XGA_TOTAL_SUPPLY
  let est_airdrop_tokens := s.user_fold * AIRDROP_RATIO
  let est_airdrop_value := est_airdrop_tokens * xga_price
  let base_capital := s.user_fold * s.current_price
  let est_incentive_value := base_capital * 3.40
  { vault_rev_eth := vault_rev_eth
    vault_rev_display := vault_rev_display
    staked_amt := staked_amt
    yield_per_token := yield_per_token
    implied_mcap := implied_mcap
    implied_price := implied_price
    current_val_ref := current_val_ref
    div_yield := div_yield
    upside := upside
    my_income_annual := my_income_annual
    my_portfolio_val := my_portfolio_val
    xga_price := xga_price
    est_airdrop_tokens := est_airdrop_tokens
    est_airdrop_value := est_airdrop_value
    est_incentive_value := est_incentive_value }

/-- np.interp applied to the two-point table ([1, 36], [0.1, 1.0]) as the ramp
loop does (source line 385): linear interpolation, clamped at the endpoints. -/
def ramp_interp (m : ℚ) : ℚ :=
  if m ≤ 1 then 0.1
  else if 36 ≤ m then 1.0
  else 0.1 + (m - 1) * (1.0 - 0.1) / (36 - 1)

/-- The 36-month ramp loop (source lines 383-388): for months 1, 12, 24, 36 in
order, pair the month with vault_rev_display scaled by the interpolated factor. -/
def ramp_projection (vault_rev_display : ℚ) : List (ℚ × ℚ) :=
  [1, 12, 24, 36].map (fun m => (m, vault_rev_display * ramp_interp m))

/-- The ramp factor as the spec's sentence words it: the piecewise-linear
interpolation between 0.1 at month 1 and 1.0 at month 36, clamped at the two
endpoints. Stated independently of the source's `np.interp` call, to be
compared with `ramp_interp`. -/
def spec_ramp_factor (m : ℚ) : ℚ :=
  max 0.1 (min 1.0 (0.1 + (m - 1) * (1.0 - 0.1) / (36 - 1)))

/-! ## Helper lemmas -/

theorem safe_divide_zero_den (n : ℚ) : safe_divide n 0 = 0 := by
  norm_num [safe_divide]

theorem safe_divide_zero_num (d : ℚ) : safe_divide 0 d = 0 := by
  by_cases h : d = 0 <;> norm_num [safe_divide, h]

/-- The product form of calculate_vault_revenue_eth after zeta-reducing its lets. -/
theorem calculate_vault_revenue_eth_eq (ms ar sr bid kr fs : ℚ) :
    calculate_vault_revenue_eth ms ar sr bid kr fs
      = 2628000 * ms * ar * sr * bid * (1 - kr) * fs := by
  show BLOCKS_PER_YEAR * ms * ar * sr * bid * (1.0 - kr) * fs
      = 2628000 * ms * ar * sr * bid * (1 - kr) * fs
  norm_num [BLOCKS_PER_YEAR]

/-! ## Claim theorems -/

/-- C1 (counterexample): with the Realistic-preset defaults (USD mode) the
recompute pipeline yields impliedPrice = 26,490,240 * 20 / 2,000,000 = 264.9024
USD, not 264.9 USD as the claim states. -/
theorem realistic_defaults_implied_price_ne :
    (recompute default_state).implied_price ≠ 264.9 := by
  norm_num [recompute, default_state, calculate_vault_revenue_eth,
    BLOCKS_PER_YEAR, FOLD_TOTAL_SUPPLY, safe_divide]

/-- C1 (amended): with the Realistic-preset defaults (marketShare=0.25,
adjustmentRate=0.40, successRate=0.50, avgBid=0.10, kickback=0.30,
foldShare=0.90, stakedPct=50, ethPrice=3200, peRatio=20, USD mode) the
recompute pipeline produces vaultRevenueEth = 8,278.2 ETH, vaultRevenueDisplay
= 26,490,240 USD, stakedAmount = 1,000,000 FOLD, yieldPerToken = 26.49024 USD
(≈ 26.49), and impliedPrice = 264.9024 USD (≈ 264.9, not exactly 264.9). -/
theorem realistic_defaults_snapshot :
    (recompute default_state).vault_rev_eth = 8278.2 ∧
    (recompute default_state).vault_rev_display = 26490240 ∧
    (recompute default_state).staked_amt = 1000000 ∧
    (recompute default_state).yield_per_token = 26.49024 ∧
    |(recompute default_state).yield_per_token - 26.49| < 1 / 100 ∧
    (recompute default_state).implied_price = 264.9024 := by
  norm_num [recompute, default_state, calculate_vault_revenue_eth,
    BLOCKS_PER_YEAR, FOLD_TOTAL_SUPPLY, safe_divide, abs_lt]

/-- C2: safe_divide returns numerator/denominator when the denominator is
nonzero and 0.0 when the denominator is 0, for every numerator including 0;
as a total function it raises no error. -/
theorem safe_divide_spec (numerator denominator : ℚ) :
    safe_divide numerator denominator =
      if denominator = 0 then 0 else numerator / denominator := by
  by_cases h : denominator = 0 <;> norm_num [safe_divide, h]

/-- C5: whenever staked_lock is true, the sidebar pass forces staked_pct to 20
immediately (before any recompute), and the subsequent recompute yields
stakedAmount = 400,000 FOLD. -/
theorem staked_lock_invariant (s : InputState) (h : s.staked_lock = true) :
    (apply_staked_lock s).staked_pct = 20 ∧
    (recompute (apply_staked_lock s)).staked_amt = 400000 := by
  constructor
  · simp [apply_staked_lock, h]
  · simp [apply_staked_lock, h, recompute, FOLD_TOTAL_SUPPLY]
    norm_num

theorem staked_lock_invariant_witness :
    (apply_staked_lock { default_state with staked_lock := true }).staked_pct = 20 ∧
    (recompute (apply_staked_lock { default_state with staked_lock := true })).staked_amt
      = 400000 :=
  staked_lock_invariant { default_state with staked_lock := true } rfl

/-- C6: for any InputState with positive eth_price, recomputing in ETH mode and
multiplying the displayed vault revenue by eth_price equals the displayed vault
revenue of recomputing the same InputState in USD mode (exactly, in ℚ). -/
theorem currency_round_trip (s : InputState) (hpos : 0 < s.eth_price) :
    (recompute { s with currency_mode := CurrencyMode.eth }).vault_rev_display * s.eth_price
      = (recompute { s with currency_mode := CurrencyMode.usd }).vault_rev_display := by
  simp [recompute]

theorem currency_round_trip_witness :
    (recompute { default_state with currency_mode := CurrencyMode.eth }).vault_rev_display
        * default_state.eth_price
      = (recompute { default_state with currency_mode := CurrencyMode.usd }).vault_rev_display :=
  currency_round_trip default_state (by norm_num [default_state])

/-- C3 (counterexample): over all non-negative argument tuples the claimed
monotonicity fails: with adjustmentRate = successRate = avgBid = foldShare = 1
and kickbackRate = 2 (all non-negative), raising marketShare from 0 to 1
strictly decreases the revenue, because the factor (1 - kickbackRate) is
negative. -/
theorem vault_revenue_monotone_counterexample :
    ¬ (∀ ms ms' ar sr bid kr fs : ℚ,
        0 ≤ ms → 0 ≤ ms' → 0 ≤ ar → 0 ≤ sr → 0 ≤ bid → 0 ≤ kr → 0 ≤ fs →
        ms ≤ ms' →
        calculate_vault_revenue_eth ms ar sr bid kr fs ≤
          calculate_vault_revenue_eth ms' ar sr bid kr fs) := by
  intro hmono
  have h := hmono 0 1 1 1 1 2 1 (by norm_num) (by norm_num) (by norm_num)
    (by norm_num) (by norm_num) (by norm_num) (by norm_num) (by norm_num)
  rw [calculate_vault_revenue_eth_eq, calculate_vault_revenue_eth_eq] at h
  norm_num at h

/-- C3 (amended): for non-negative arguments with kickbackRate ≤ 1,
vaultRevenueEth is non-decreasing in each of marketShare, adjustmentRate,
successRate, avgBid and foldShare with the others fixed; and for all
non-negative arguments it is non-increasing in kickbackRate. -/
theorem vault_revenue_monotone
    (ms ms' ar ar' sr sr' bid bid' kr kr' fs fs' : ℚ)
    (hms : 0 ≤ ms) (har : 0 ≤ ar) (hsr : 0 ≤ sr) (hbid : 0 ≤ bid)
    (hkr : 0 ≤ kr) (hfs : 0 ≤ fs) :
    (kr ≤ 1 → ms ≤ ms' → calculate_vault_revenue_eth ms ar sr bid kr fs ≤
        calculate_vault_revenue_eth ms' ar sr bid kr fs) ∧
    (kr ≤ 1 → ar ≤ ar' → calculate_vault_revenue_eth ms ar sr bid kr fs ≤
        calculate_vault_revenue_eth ms ar' sr bid kr fs) ∧
    (kr ≤ 1 → sr ≤ sr' → calculate_vault_revenue_eth ms ar sr bid kr fs ≤
        calculate_vault_revenue_eth ms ar sr' bid kr fs) ∧
    (kr ≤ 1 → bid ≤ bid' → calculate_vault_revenue_eth ms ar sr bid kr fs ≤
        calculate_vault_revenue_eth ms ar sr bid' kr fs) ∧
    (kr ≤ 1 → fs ≤ fs' → calculate_vault_revenue_eth ms ar sr bid kr fs ≤
        calculate_vault_revenue_eth ms ar sr bid kr fs') ∧
    (kr ≤ kr' → calculate_vault_revenue_eth ms ar sr bid kr' fs ≤
        calculate_vault_revenue_eth ms ar sr bid kr fs) := by
  have hbig : (0:ℚ) ≤ 2628000 := by norm_num
  simp only [calculate_vault_revenue_eth_eq]
  refine ⟨fun hkr1 hle => ?_, fun hkr1 hle => ?_, fun hkr1 hle => ?_,
    fun hkr1 hle => ?_, fun hkr1 hle => ?_, fun hle => ?_⟩
  · have h1k : (0:ℚ) ≤ 1 - kr := by linarith
    have key : ∀ x : ℚ, 2628000 * x * ar * sr * bid * (1 - kr) * fs
        = x * (2628000 * (ar * (sr * (bid * ((1 - kr) * fs))))) := fun x => by ring
    rw [key ms, key ms']
    exact mul_le_mul_of_nonneg_right hle
      (mul_nonneg hbig (mul_nonneg har (mul_nonneg hsr
        (mul_nonneg hbid (mul_nonneg h1k hfs)))))
  · have h1k : (0:ℚ) ≤ 1 - kr := by linarith
    have key : ∀ x : ℚ, 2628000 * ms * x * sr * bid * (1 - kr) * fs
        = x * (2628000 * (ms * (sr * (bid * ((1 - kr) * fs))))) := fun x => by ring
    rw [key ar, key ar']
    exact mul_le_mul_of_nonneg_right hle
      (mul_nonneg hbig (mul_nonneg hms (mul_nonneg hsr
        (mul_nonneg hbid (mul_nonneg h1k hfs)))))
  · have h1k : (0:ℚ) ≤ 1 - kr := by linarith
    have key : ∀ x : ℚ, 2628000 * ms * ar * x * bid * (1 - kr) * fs
        = x * (2628000 * (ms * (ar * (bid * ((1 - kr) * fs))))) := fun x => by ring
    rw [key sr, key sr']
    exact mul_le_mul_of_nonneg_right hle
      (mul_nonneg hbig (mul_nonneg hms (mul_nonneg har
        (mul_nonneg hbid (mul_nonneg h1k hfs)))))
  · have h1k : (0:ℚ) ≤ 1 - kr := by linarith
    have key : ∀ x : ℚ, 2628000 * ms * ar * sr * x * (1 - kr) * fs
        = x * (2628000 * (ms * (ar * (sr * ((1 - kr) * fs))))) := fun x => by ring
    rw [key bid, key bid']
    exact mul_le_mul_of_nonneg_right hle
      (mul_nonneg hbig (mul_nonneg hms (mul_nonneg har
        (mul_nonneg hsr (mul_nonneg h1k hfs)))))
  · have h1k : (0:ℚ) ≤ 1 - kr := by linarith
    have key : ∀ x : ℚ, 2628000 * ms * ar * sr * bid * (1 - kr) * x
        = x * (2628000 * (ms * (ar * (sr * (bid * (1 - kr)))))) := fun x => by ring
    rw [key fs, key fs']
    exact mul_le_mul_of_nonneg_right hle
      (mul_nonneg hbig (mul_nonneg hms (mul_nonneg har
        (mul_nonneg hsr (mul_nonneg hbid h1k)))))
  · have key : ∀ x : ℚ, 2628000 * ms * ar * sr * bid * (1 - x) * fs
        = (1 - x) * (2628000 * (ms * (ar * (sr * (bid * fs))))) := fun x => by ring
    rw [key kr, key kr']
    exact mul_le_mul_of_nonneg_right (by linarith)
      (mul_nonneg hbig (mul_nonneg hms (mul_nonneg har
        (mul_nonneg hsr (mul_nonneg hbid hfs)))))

theorem vault_revenue_monotone_witness :
    (calculate_vault_revenue_eth 0.25 0.40 0.50 0.10 0.30 0.90 ≤
      calculate_vault_revenue_eth 0.40 0.40 0.50 0.10 0.30 0.90) ∧
    (calculate_vault_revenue_eth 1 1 1 1 2 1 ≤
      calculate_vault_revenue_eth 1 1 1 1 1.5 1) :=
  ⟨(vault_revenue_monotone 0.25 0.40 0.40 0.40 0.50 0.50 0.10 0.10 0.30 0.30 0.90 0.90
      (by norm_num) (by norm_num) (by norm_num) (by norm_num)
      (by norm_num) (by norm_num)).1 (by norm_num) (by norm_num),
   (vault_revenue_monotone 1 1 1 1 1 1 1 1 1.5 2 1 1
      (by norm_num) (by norm_num) (by norm_num) (by norm_num)
      (by norm_num) (by norm_num)).2.2.2.2.2 (by norm_num)⟩

/-- C4: applying one of the three known presets overwrites exactly the four
preset-controlled fields (market_share_pct, adjustment_rate_pct,
success_rate_pct, avg_bid_eth) with the preset's values and leaves every other
field unchanged; applying "Custom" or any unrecognized name changes nothing. -/
theorem update_from_preset_spec (s : InputState) (name : String)
    (hc : name ≠ "Conservative") (hr : name ≠ "Realistic") (ho : name ≠ "Optimistic") :
    update_from_preset "Conservative" s =
      { s with market_share_pct := 10, adjustment_rate_pct := 25,
               success_rate_pct := 30, avg_bid_eth := 0.05 } ∧
    update_from_preset "Realistic" s =
      { s with market_share_pct := 25, adjustment_rate_pct := 40,
               success_rate_pct := 50, avg_bid_eth := 0.10 } ∧
    update_from_preset "Optimistic" s =
      { s with market_share_pct := 40, adjustment_rate_pct := 60,
               success_rate_pct := 70, avg_bid_eth := 0.15 } ∧
    update_from_preset "Custom" s = s ∧
    update_from_preset name s = s := by
  refine ⟨?_, ?_, ?_, ?_, ?_⟩ <;>
    simp [update_from_preset, SCENARIO_PRESETS, hc, hr, ho]

theorem update_from_preset_spec_witness :
    update_from_preset "Custom" default_state = default_state ∧
    update_from_preset "Banana" default_state = default_state :=
  ⟨(update_from_preset_spec default_state "Banana"
      (by decide) (by decide) (by decide)).2.2.2.1,
   (update_from_preset_spec default_state "Banana"
      (by decide) (by decide) (by decide)).2.2.2.2⟩

/-- C7 (counterexample): the Market Share % slider's source bounds are 0 and 50,
so writing 75 (a value of [0,100] between 50 and 100) stores 50, not 75:
values in (50,100] are not accepted stored values of market_share_pct. -/
theorem market_share_range_counterexample :
    (set_market_share_pct default_state 75).market_share_pct = 50 ∧
    (set_market_share_pct default_state 75).market_share_pct ≠ 75 := by
  norm_num [set_market_share_pct, market_share_slider_min, market_share_slider_max,
    min_def, max_def]

/-- C7 (amended): setting market_share_pct clamps the requested value to the
slider interval [0, 50]: every value in [0, 50] is stored unchanged, every
stored value lies in [0, 50], and values above 50 are stored as 50. -/
theorem market_share_range_clamp (s : InputState) (v : ℚ) :
    (0 ≤ v → v ≤ 50 → (set_market_share_pct s v).market_share_pct = v) ∧
    (0 ≤ (set_market_share_pct s v).market_share_pct ∧
      (set_market_share_pct s v).market_share_pct ≤ 50) ∧
    (50 < v → (set_market_share_pct s v).market_share_pct = 50) := by
  refine ⟨fun h0 h50 => ?_, ⟨?_, ?_⟩, fun h50 => ?_⟩ <;>
    simp only [set_market_share_pct, market_share_slider_min, market_share_slider_max]
  · rw [min_eq_right h50]
    exact max_eq_right h0
  · exact le_max_left _ _
  · exact max_le (by norm_num) (min_le_left _ _)
  · rw [min_eq_left (le_of_lt h50)]
    exact max_eq_right (by norm_num)

theorem market_share_range_clamp_witness :
    (set_market_share_pct default_state 30).market_share_pct = 30 ∧
    (set_market_share_pct default_state 75).market_share_pct = 50 :=
  ⟨(market_share_range_clamp default_state 30).1 (by norm_num) (by norm_num),
   (market_share_range_clamp default_state 75).2.2 (by norm_num)⟩

/-- C8: the 36-month ramp projection visits exactly the months 1, 12, 24, 36 in
order, the ramp factor at each month is the piecewise-linear interpolation
between 0.1 at month 1 and 1.0 at month 36 clamped at the two endpoints, and
each output revenue is vault_rev_display multiplied by that factor. -/
theorem ramp_projection_spec (d : ℚ) :
    ramp_projection d =
      [(1, d * spec_ramp_factor 1), (12, d * spec_ramp_factor 12),
       (24, d * spec_ramp_factor 24), (36, d * spec_ramp_factor 36)] := by
  norm_num [ramp_projection, ramp_interp, spec_ramp_factor, min_def, max_def]

/-- C9: the XGA rewards outputs depend only on the XGA target market cap,
user_fold and current_price: any two InputStates agreeing on those three
fields — in particular two that differ only in currency_mode and/or
eth_price — produce identical xga_price, est_airdrop_tokens,
est_airdrop_value and est_incentive_value. -/
theorem xga_outputs_noninterference (s₁ s₂ : InputState)
    (hmcap : s₁.xga_mcap_input = s₂.xga_mcap_input)
    (hfold : s₁.user_fold = s₂.user_fold)
    (hprice : s₁.current_price = s₂.current_price) :
    (recompute s₁).xga_price = (recompute s₂).xga_price ∧
    (recompute s₁).est_airdrop_tokens = (recompute s₂).est_airdrop_tokens ∧
    (recompute s₁).est_airdrop_value = (recompute s₂).est_airdrop_value ∧
    (recompute s₁).est_incentive_value = (recompute s₂).est_incentive_value := by
  simp [recompute, hmcap, hfold, hprice]

theorem xga_outputs_noninterference_witness :
    (recompute { default_state with currency_mode := CurrencyMode.eth, eth_price := 0 }).xga_price
      = (recompute default_state).xga_price ∧
    (recompute { default_state with currency_mode := CurrencyMode.eth, eth_price := 0 }).est_airdrop_tokens
      = (recompute default_state).est_airdrop_tokens ∧
    (recompute { default_state with currency_mode := CurrencyMode.eth, eth_price := 0 }).est_airdrop_value
      = (recompute default_state).est_airdrop_value ∧
    (recompute { default_state with currency_mode := CurrencyMode.eth, eth_price := 0 }).est_incentive_value
      = (recompute default_state).est_incentive_value :=
  xga_outputs_noninterference
    { default_state with currency_mode := CurrencyMode.eth, eth_price := 0 }
    default_state rfl rfl rfl

/-- C10: for every InputState with staked_pct = 0 the recompute returns
stakedAmount = 0, yield_per_token = 0, dividend yield 0 and annual income 0
without raising any error, while implied_price is unaffected: for every
InputState, implied_price is independent of staked_pct, staked_lock and
user_fold. -/
theorem zero_staked_behavior (s : InputState) (h : s.staked_pct = 0)
    (t : InputState) (p u : ℚ) (l : Bool) :
    ((recompute s).staked_amt = 0 ∧
     (recompute s).yield_per_token = 0 ∧
     (recompute s).div_yield = 0 ∧
     (recompute s).my_income_annual = 0) ∧
    (recompute { t with staked_pct := p, staked_lock := l, user_fold := u }).implied_price
      = (recompute t).implied_price := by
  constructor
  · cases hc : s.currency_mode <;>
      simp [recompute, h, hc, FOLD_TOTAL_SUPPLY, safe_divide_zero_den, safe_divide_zero_num]
  · cases hc : t.currency_mode <;> simp [recompute, hc]

theorem zero_staked_behavior_witness :
    ((recompute { default_state with staked_pct := 0 }).staked_amt = 0 ∧
     (recompute { default_state with staked_pct := 0 }).yield_per_token = 0 ∧
     (recompute { default_state with staked_pct := 0 }).div_yield = 0 ∧
     (recompute { default_state with staked_pct := 0 }).my_income_annual = 0) ∧
    (recompute { default_state with staked_pct := 77, staked_lock := true, user_fold := 123 }).implied_price
      = (recompute default_state).implied_price :=
  zero_staked_behavior { default_state with staked_pct := 0 } rfl
    default_state 77 123 true

end FoldValuation
